import Mathlib

/-!
Shallow embedding of the s3-lock library (TypeScript source: the S3Lock class
with initializeLockFile and acquireLock, plus the release closures returned by
acquireLock, the defaultConditional predicate, the defaultGenerateBody body
generator and the isCompareAndSwapLock dispatch).

The S3 client is external. Two complementary models are used:

* an oracle model: the response of the store to the i-th network operation of a
  call is given by a function env : Nat -> S3Resp, and each library function is
  a pure function of env that also records the trace of operations and delays
  it performs (the list of Ev events);

* a store-state model: stepPut gives the documented semantics of a conditional
  PutObject against a store state (the If-Match / If-None-Match semantics
  quoted in the repository README from the S3 documentation), and run*
  harnesses couple a call with the response the store state produces for the
  single write that the call issues.

JavaScript values that defaultConditional inspects are modelled by JsVal, and
JSON.parse (an external library function) by a parameter parse : String -> JsVal.
-/

/-- A JavaScript value, as far as the default predicate inspects one. -/
inductive JsVal : Type where
  | undefined : JsVal
  | jsNull : JsVal
  | bool (b : Bool) : JsVal
  | num (n : Int) : JsVal
  | str (s : String) : JsVal
  | obj (fields : List (String × JsVal)) : JsVal

/-- Field lookup in a JavaScript object literal; a missing field is undefined. -/
def lookupField : List (String × JsVal) → String → JsVal
  | [], _ => .undefined
  | (k, v) :: rest, name => if k = name then v else lookupField rest name

/-- Optional-chaining property access x?.name : on an object it is field
lookup, on every other value (null, undefined, primitives) it is undefined. -/
def JsVal.optField : JsVal → String → JsVal
  | .obj fields, name => lookupField fields name
  | _, _ => .undefined

/-- JavaScript truthiness of a value. -/
def JsVal.truthy : JsVal → Bool
  | .undefined => false
  | .jsNull => false
  | .bool b => b
  | .num n => n != 0
  | .str s => s != ""
  | .obj _ => true

/-- The fields of a GetObjectCommandOutput that the library reads: the body
(absent when the response carries none) and the ETag (also optional). -/
structure GetObjectCommandOutput : Type where
  Body : Option String
  ETag : Option String

/-- Response of the store to one operation: either a success carrying an
optional body and optional ETag, or a thrown error identified by its name
(the code discriminates errors by the name field only). -/
inductive S3Resp : Type where
  | ok (body : Option String) (etag : Option String) : S3Resp
  | err (name : String) : S3Resp

/-- An observable event of a call: a GetObject, a PutObject with its two
optional conditional headers, or a setTimeout delay of the given duration. -/
inductive Ev : Type where
  | getObject (bucket key : String) : Ev
  | putObject (bucket key : String) (ifMatch ifNoneMatch : Option String)
      (body : String) : Ev
  | sleep (ms : Int) : Ev

/-- Outcome of a failed call: the LockNotAcquiredError the library throws, or a
store error propagated unchanged (identified by its name). -/
inductive JsError : Type where
  | lockNotAcquired : JsError
  | store (name : String) : JsError

/-- The lock object returned by a successful acquireLock: its release closure
captures the bucket, the key and the ETag of the response of the acquire
write (resp.ETag in the source). -/
structure Handle : Type where
  bucket : String
  key : String
  etag : Option String

/-- The argument of acquireLock. The source takes a union of the two props
interfaces and dispatches on the presence of the conditional property, so the
conditional field is doubly optional: the outer layer records whether the
property is present at all, the inner layer whether its value is defined. -/
structure AcquireProps : Type where
  bucket : String
  key : String
  generateBody : Option String
  conditional : Option (Option (GetObjectCommandOutput → Bool))
  maxAttempts : Option Int
  timeout : Option Int

/-- Source defaultConditional: negation of the truthiness of the locked field
of JSON.parse applied to the body, an absent body being read as "\x7b\x7d". -/
def defaultConditional (parse : String → JsVal) (props : GetObjectCommandOutput) :
    Bool :=
  !((parse (props.Body.getD "\x7b\x7d")).optField "locked").truthy

/-- Source defaultGenerateBody: JSON.stringify of a locked marker. -/
def defaultGenerateBody : String := "\x7b\"locked\":true\x7d"

/-- The body initializeLockFile writes: JSON.stringify of an unlocked marker. -/
def initializeBody : String := "\x7b\"locked\":false\x7d"

/-- Source isCompareAndSwapLock: the conditional-in-lock presence test. -/
def isCompareAndSwapLock (props : AcquireProps) : Bool :=
  props.conditional.isSome

/-- The compare-and-swap while loop of acquireLock. The first Nat argument is
the remaining attempt budget (the source decrements attempt and exits at zero,
so an Int budget b runs b.toNat iterations); the second is the index of the
next store operation in the oracle. Each iteration: one GetObject (a thrown
read error propagates, it is outside the try block), then the conditional; if
it is false, a sleep of timeout and the next attempt; if true, one PutObject
conditioned with If-Match on the ETag just read; a PreconditionFailed write
error sleeps and retries, success returns the handle with the ETag of the
write response, any other write error propagates. At budget zero the loop
falls through to throw LockNotAcquiredError. -/
def casLoop (env : Nat → S3Resp) (bucket key : String) (timeout : Int)
    (body : String) (conditional : GetObjectCommandOutput → Bool) :
    Nat → Nat → Except JsError Handle × List Ev
  | 0, _ => (.error .lockNotAcquired, [])
  | n + 1, idx =>
    match env idx with
    | .err e => (.error (.store e), [.getObject bucket key])
    | .ok b t =>
      if conditional ⟨b, t⟩ then
        match env (idx + 1) with
        | .ok _ t2 =>
          (.ok ⟨bucket, key, t2⟩,
            [.getObject bucket key, .putObject bucket key t none body])
        | .err e =>
          if e = "PreconditionFailed" then
            let r := casLoop env bucket key timeout body conditional n (idx + 2)
            (r.1, .getObject bucket key :: .putObject bucket key t none body ::
              .sleep timeout :: r.2)
          else
            (.error (.store e),
              [.getObject bucket key, .putObject bucket key t none body])
      else
        let r := casLoop env bucket key timeout body conditional n (idx + 1)
        (r.1, .getObject bucket key :: .sleep timeout :: r.2)

/-- Source acquireLock. When the props carry a conditional property the CAS
branch runs with defaults maxAttempts 5, timeout 5000 and defaultConditional;
otherwise the existence branch issues a single PutObject conditioned with
If-None-Match, converts a PreconditionFailed error to LockNotAcquiredError,
rethrows any other error, and on success returns the handle carrying the ETag
of the write response. -/
def acquireLock (parse : String → JsVal) (env : Nat → S3Resp)
    (props : AcquireProps) : Except JsError Handle × List Ev :=
  let body := props.generateBody.getD defaultGenerateBody
  if isCompareAndSwapLock props then
    let attempt := props.maxAttempts.getD 5
    let timeout := props.timeout.getD 5000
    let conditional := (props.conditional.getD none).getD (defaultConditional parse)
    casLoop env props.bucket props.key timeout body conditional attempt.toNat 0
  else
    let op := Ev.putObject props.bucket props.key none (some "*") body
    match env 0 with
    | .ok _ t => (.ok ⟨props.bucket, props.key, t⟩, [op])
    | .err e =>
      (if e = "PreconditionFailed" then .error .lockNotAcquired
       else .error (.store e), [op])

/-- The release closure returned by both branches of acquireLock: a single
PutObject conditioned with If-Match on the ETag captured at acquire time, with
no catch around it, so every store error propagates unchanged. -/
def release (env : Nat → S3Resp) (h : Handle) (newBody : String) :
    Except JsError Unit × List Ev :=
  let op := Ev.putObject h.bucket h.key h.etag none newBody
  match env 0 with
  | .ok _ _ => (.ok (), [op])
  | .err e => (.error (.store e), [op])

/-- Source initializeLockFile: a single PutObject of the unlocked marker with
no conditional header at all, converting a PreconditionFailed error to
LockNotAcquiredError and rethrowing any other error. -/
def initializeLockFile (env : Nat → S3Resp) (bucket key : String) :
    Except JsError Unit × List Ev :=
  let op := Ev.putObject bucket key none none initializeBody
  match env 0 with
  | .ok _ _ => (.ok (), [op])
  | .err e =>
    (if e = "PreconditionFailed" then .error .lockNotAcquired
     else .error (.store e), [op])

/-- A stored object: its body and the version tag the store assigned to the
write that produced it. -/
structure Obj : Type where
  body : String
  etag : String

/-- The state of the object store: contents per bucket and key. -/
abbrev S3State : Type := String → String → Option Obj

/-- Overwrite one key of the store state. -/
def S3State.put (s : S3State) (bucket key : String) (o : Obj) : S3State :=
  fun b k => if b = bucket ∧ k = key then some o else s b k

/-- Documented semantics of a conditional PutObject against a store state,
with fresh the version tag assigned on success: If-None-Match fails with
PreconditionFailed when the key already holds an object; If-Match fails with
PreconditionFailed when the current tag differs (and NoSuchKey when the key is
empty); a write with neither header is unconditional and always succeeds. -/
def stepPut (s : S3State) (fresh : String) (bucket key : String)
    (ifMatch ifNoneMatch : Option String) (body : String) : S3Resp × S3State :=
  match ifNoneMatch with
  | some _ =>
    match s bucket key with
    | some _ => (.err "PreconditionFailed", s)
    | none => (.ok none (some fresh), s.put bucket key ⟨body, fresh⟩)
  | none =>
    match ifMatch with
    | some t =>
      match s bucket key with
      | some o =>
        if o.etag = t then (.ok none (some fresh), s.put bucket key ⟨body, fresh⟩)
        else (.err "PreconditionFailed", s)
      | none => (.err "NoSuchKey", s)
    | none => (.ok none (some fresh), s.put bucket key ⟨body, fresh⟩)

/-- Run an existence-mode acquireLock against a store state: the call issues
exactly one write, so its oracle is the response of the store to that write. -/
def runExistence (parse : String → JsVal) (s : S3State) (fresh : String)
    (props : AcquireProps) : (Except JsError Handle × List Ev) × S3State :=
  let body := props.generateBody.getD defaultGenerateBody
  let r := stepPut s fresh props.bucket props.key none (some "*") body
  (acquireLock parse (fun _ => r.1) props, r.2)

/-- Run a release against a store state: the call issues exactly one write, so
its oracle is the response of the store to that write. -/
def runRelease (s : S3State) (fresh : String) (h : Handle) (newBody : String) :
    (Except JsError Unit × List Ev) × S3State :=
  let r := stepPut s fresh h.bucket h.key h.etag none newBody
  (release (fun _ => r.1) h newBody, r.2)

/-- Run initializeLockFile against a store state: the call issues exactly one
write, so its oracle is the response of the store to that write. -/
def runInitialize (s : S3State) (fresh bucket key : String) :
    (Except JsError Unit × List Ev) × S3State :=
  let r := stepPut s fresh bucket key none none initializeBody
  (initializeLockFile (fun _ => r.1) bucket key, r.2)

/-- Whether an event is a store read. -/
def Ev.isGet : Ev → Bool
  | .getObject _ _ => true
  | _ => false

/-- Whether an event is a store write. -/
def Ev.isPut : Ev → Bool
  | .putObject _ _ _ _ _ => true
  | _ => false

/-- Helper: with the conditional property absent, acquireLock is the existence
branch, whose outcome is a pure function of the single response env 0 and whose
trace is exactly one If-None-Match write of the generated body. -/
theorem acquireLock_existence_eq (parse : String → JsVal) (env : Nat → S3Resp)
    (props : AcquireProps) (hc : props.conditional = none) :
    acquireLock parse env props =
      ((match env 0 with
        | .ok _ t => .ok ⟨props.bucket, props.key, t⟩
        | .err e =>
          if e = "PreconditionFailed" then .error .lockNotAcquired
          else .error (.store e)),
       [.putObject props.bucket props.key none (some "*")
         (props.generateBody.getD defaultGenerateBody)]) := by
  simp only [acquireLock, isCompareAndSwapLock, hc, Option.isSome_none,
    Bool.false_eq_true, if_false]
  cases env 0 <;> rfl

/-- Claim C7: existence-mode acquireLock issues exactly one conditional write
with precondition If-None-Match (must not exist) and never retries internally:
its trace is the single write whatever the store answers; on a
PreconditionFailed error it fails with LockNotAcquiredError, on success it
returns a handle carrying the ETag of the write response, and any other store
error propagates unchanged. -/
theorem existence_single_write_no_retry (parse : String → JsVal)
    (env : Nat → S3Resp) (props : AcquireProps)
    (hc : props.conditional = none) :
    (acquireLock parse env props).2 =
      [.putObject props.bucket props.key none (some "*")
        (props.generateBody.getD defaultGenerateBody)] ∧
    (∀ b t, env 0 = .ok b t →
      (acquireLock parse env props).1 = .ok ⟨props.bucket, props.key, t⟩) ∧
    (env 0 = .err "PreconditionFailed" →
      (acquireLock parse env props).1 = .error .lockNotAcquired) ∧
    (∀ e, env 0 = .err e → e ≠ "PreconditionFailed" →
      (acquireLock parse env props).1 = .error (.store e)) := by
  refine ⟨?_, ?_, ?_, ?_⟩
  · rw [acquireLock_existence_eq parse env props hc]
  · intro b t h0
    rw [acquireLock_existence_eq parse env props hc]
    simp [h0]
  · intro h0
    rw [acquireLock_existence_eq parse env props hc]
    simp [h0]
  · intro e h0 hne
    rw [acquireLock_existence_eq parse env props hc]
    simp [h0, hne]

/-- Witness for C7 at concrete inputs: a success response, a PreconditionFailed
response and a NetworkError response. -/
theorem existence_single_write_no_retry_witness :
    (acquireLock (fun _ => JsVal.undefined) (fun _ => S3Resp.ok none (some "e1"))
        ⟨"b", "k", none, none, none, none⟩).1 = .ok ⟨"b", "k", some "e1"⟩ ∧
    (acquireLock (fun _ => JsVal.undefined) (fun _ => S3Resp.ok none (some "e1"))
        ⟨"b", "k", none, none, none, none⟩).2 =
      [.putObject "b" "k" none (some "*") defaultGenerateBody] ∧
    (acquireLock (fun _ => JsVal.undefined)
        (fun _ => S3Resp.err "PreconditionFailed")
        ⟨"b", "k", none, none, none, none⟩).1 = .error .lockNotAcquired ∧
    (acquireLock (fun _ => JsVal.undefined) (fun _ => S3Resp.err "NetworkError")
        ⟨"b", "k", none, none, none, none⟩).1 = .error (.store "NetworkError") :=
  ⟨(existence_single_write_no_retry _ _ _ rfl).2.1 none (some "e1") rfl,
   (existence_single_write_no_retry _ _ _ rfl).1,
   (existence_single_write_no_retry _ _ _ rfl).2.2.1 rfl,
   (existence_single_write_no_retry _ _ _ rfl).2.2.2 "NetworkError" rfl
     (by decide)⟩

/-- Claim C10: a CAS-mode acquireLock call with maxAttempts at most zero fails
with LockNotAcquiredError immediately, with an empty trace: no store read, no
store write. -/
theorem cas_nonpositive_attempts_immediate (parse : String → JsVal)
    (env : Nat → S3Resp) (props : AcquireProps)
    (c : Option (GetObjectCommandOutput → Bool)) (m : Int)
    (hc : props.conditional = some c) (hm : props.maxAttempts = some m)
    (hm0 : m ≤ 0) :
    acquireLock parse env props = (.error .lockNotAcquired, []) := by
  simp [acquireLock, isCompareAndSwapLock, hc, hm, Int.toNat_of_nonpos hm0,
    casLoop]

/-- Witness for C10: maxAttempts zero with an always-available store. -/
theorem cas_nonpositive_attempts_immediate_witness :
    acquireLock (fun _ => JsVal.undefined) (fun _ => S3Resp.ok none none)
      ⟨"b", "k", none, some none, some 0, none⟩ =
      (.error .lockNotAcquired, []) :=
  cas_nonpositive_attempts_immediate _ _ _ none 0 rfl rfl (by decide)

/-- Claim C8: a CAS iteration whose read succeeds and whose conditional
evaluates to false issues no write: it contributes only the read and the
inter-attempt sleep to the trace, leaves the outcome to the continuation, and
the continuation runs with the same attempt counter decremented by one (the
same counter the write-rejection path decrements). -/
theorem cas_predicate_false_consumes_attempt (env : Nat → S3Resp)
    (bucket key : String) (timeout : Int) (body : String)
    (conditional : GetObjectCommandOutput → Bool) (n idx : Nat)
    (b t : Option String) (h1 : env idx = .ok b t)
    (h2 : conditional ⟨b, t⟩ = false) :
    casLoop env bucket key timeout body conditional (n + 1) idx =
      ((casLoop env bucket key timeout body conditional n (idx + 1)).1,
       .getObject bucket key :: .sleep timeout ::
         (casLoop env bucket key timeout body conditional n (idx + 1)).2) := by
  simp [casLoop, h1, h2]

/-- Witness for C8 at a concrete input with an always-false conditional. -/
theorem cas_predicate_false_consumes_attempt_witness :
    casLoop (fun _ => S3Resp.ok none none) "b" "k" 7 "x" (fun _ => false) 1 0 =
      ((casLoop (fun _ => S3Resp.ok none none) "b" "k" 7 "x"
          (fun _ => false) 0 1).1,
       .getObject "b" "k" :: .sleep 7 ::
         (casLoop (fun _ => S3Resp.ok none none) "b" "k" 7 "x"
           (fun _ => false) 0 1).2) :=
  cas_predicate_false_consumes_attempt _ _ _ _ _ _ 0 0 none none rfl rfl

/-- Helper: when every store response is a success and the conditional rejects
every read, casLoop with budget n fails with LockNotAcquiredError after
exactly n reads and no write. -/
theorem casLoop_false_conditional (env : Nat → S3Resp) (bucket key : String)
    (timeout : Int) (body : String)
    (conditional : GetObjectCommandOutput → Bool)
    (henv : ∀ i, ∃ b t, env i = .ok b t)
    (hcond : ∀ o, conditional o = false) :
    ∀ n idx,
      (casLoop env bucket key timeout body conditional n idx).1 =
        .error .lockNotAcquired ∧
      (casLoop env bucket key timeout body conditional n idx).2.countP
        Ev.isGet = n ∧
      (casLoop env bucket key timeout body conditional n idx).2.countP
        Ev.isPut = 0 := by
  intro n
  induction n with
  | zero => intro idx; simp [casLoop]
  | succ n ih =>
    intro idx
    obtain ⟨b, t, hbt⟩ := henv idx
    have h := ih (idx + 1)
    simp [casLoop, hbt, hcond, List.countP_cons, Ev.isGet, Ev.isPut, h.1,
      h.2.1, h.2.2]

/-- Claim C3: a CAS-mode acquireLock whose conditional returns false on every
read (all reads succeeding) performs exactly maxAttempts store reads, issues
no store write, and fails with LockNotAcquiredError. -/
theorem cas_never_true_exhausts_attempts (parse : String → JsVal)
    (env : Nat → S3Resp) (props : AcquireProps)
    (cond : GetObjectCommandOutput → Bool) (m : Int)
    (hc : props.conditional = some (some cond))
    (hcond : ∀ o, cond o = false)
    (henv : ∀ i, ∃ b t, env i = .ok b t)
    (hm : props.maxAttempts.getD 5 = m) (hm0 : 0 ≤ m) :
    (acquireLock parse env props).1 = .error .lockNotAcquired ∧
    ((acquireLock parse env props).2.countP Ev.isGet : Int) = m ∧
    (acquireLock parse env props).2.countP Ev.isPut = 0 := by
  have h := casLoop_false_conditional env props.bucket props.key
    (props.timeout.getD 5000) (props.generateBody.getD defaultGenerateBody)
    cond henv hcond m.toNat 0
  have hgoal : acquireLock parse env props =
      casLoop env props.bucket props.key (props.timeout.getD 5000)
        (props.generateBody.getD defaultGenerateBody) cond m.toNat 0 := by
    simp [acquireLock, isCompareAndSwapLock, hc, hm]
  rw [hgoal]
  exact ⟨h.1, by rw [h.2.1, Int.toNat_of_nonneg hm0], h.2.2⟩

/-- Witness for C3: two attempts with an always-false conditional give two
reads, no write and LockNotAcquiredError. -/
theorem cas_never_true_exhausts_attempts_witness :
    (acquireLock (fun _ => JsVal.undefined) (fun _ => S3Resp.ok none none)
        ⟨"b", "k", none, some (some (fun _ => false)), some 2, some 0⟩).1 =
      .error .lockNotAcquired ∧
    ((acquireLock (fun _ => JsVal.undefined) (fun _ => S3Resp.ok none none)
        ⟨"b", "k", none, some (some (fun _ => false)), some 2,
          some 0⟩).2.countP Ev.isGet : Int) = 2 ∧
    (acquireLock (fun _ => JsVal.undefined) (fun _ => S3Resp.ok none none)
        ⟨"b", "k", none, some (some (fun _ => false)), some 2,
          some 0⟩).2.countP Ev.isPut = 0 :=
  cas_never_true_exhausts_attempts _ _ _ _ 2 rfl (fun _ => rfl)
    (fun _ => ⟨none, none, rfl⟩) rfl (by decide)

/-- Claim C6: in the CAS loop, a write rejected with PreconditionFailed sleeps
the inter-attempt delay and retries from the read step with the attempt
counter decremented; a read error aborts immediately with the error
propagated unchanged after only the read; a write error other than
PreconditionFailed aborts immediately with the error propagated unchanged; no
propagated error is converted to LockNotAcquiredError. -/
theorem cas_retry_only_on_precondition_failure (env : Nat → S3Resp)
    (bucket key : String) (timeout : Int) (body : String)
    (conditional : GetObjectCommandOutput → Bool) (n idx : Nat)
    (b t : Option String) (e : String) :
    (env idx = .ok b t → conditional ⟨b, t⟩ = true →
      env (idx + 1) = .err "PreconditionFailed" →
      casLoop env bucket key timeout body conditional (n + 1) idx =
        ((casLoop env bucket key timeout body conditional n (idx + 2)).1,
         .getObject bucket key :: .putObject bucket key t none body ::
           .sleep timeout ::
           (casLoop env bucket key timeout body conditional n (idx + 2)).2)) ∧
    (env idx = .err e → e ≠ "PreconditionFailed" →
      casLoop env bucket key timeout body conditional (n + 1) idx =
        (.error (.store e), [.getObject bucket key])) ∧
    (env idx = .ok b t → conditional ⟨b, t⟩ = true → env (idx + 1) = .err e →
      e ≠ "PreconditionFailed" →
      casLoop env bucket key timeout body conditional (n + 1) idx =
        (.error (.store e),
         [.getObject bucket key, .putObject bucket key t none body])) := by
  refine ⟨?_, ?_, ?_⟩
  · intro h1 h2 h3
    simp [casLoop, h1, h2, h3]
  · intro h1 _
    simp [casLoop, h1]
  · intro h1 h2 h3 hne
    simp [casLoop, h1, h2, h3, hne]

/-- Witness for C6 at concrete inputs: one rejected write that retries, one
read error that propagates, one non-precondition write error that
propagates. -/
theorem cas_retry_only_on_precondition_failure_witness :
    casLoop (fun i => if i = 0 then S3Resp.ok none none
        else S3Resp.err "PreconditionFailed") "b" "k" 7 "x" (fun _ => true)
        1 0 =
      ((casLoop (fun i => if i = 0 then S3Resp.ok none none
          else S3Resp.err "PreconditionFailed") "b" "k" 7 "x" (fun _ => true)
          0 2).1,
       .getObject "b" "k" :: .putObject "b" "k" none none "x" :: .sleep 7 ::
         (casLoop (fun i => if i = 0 then S3Resp.ok none none
           else S3Resp.err "PreconditionFailed") "b" "k" 7 "x" (fun _ => true)
           0 2).2) ∧
    casLoop (fun _ => S3Resp.err "NetworkError") "b" "k" 7 "x" (fun _ => true)
        1 0 = (.error (.store "NetworkError"), [.getObject "b" "k"]) ∧
    casLoop (fun i => if i = 0 then S3Resp.ok none none
        else S3Resp.err "AccessDenied") "b" "k" 7 "x" (fun _ => true) 1 0 =
      (.error (.store "AccessDenied"),
       [.getObject "b" "k", .putObject "b" "k" none none "x"]) :=
  ⟨(cas_retry_only_on_precondition_failure _ "b" "k" 7 "x" _ 0 0 none none
      "PreconditionFailed").1 rfl rfl rfl,
   (cas_retry_only_on_precondition_failure _ "b" "k" 7 "x" _ 0 0 none none
      "NetworkError").2.1 rfl (by decide),
   (cas_retry_only_on_precondition_failure _ "b" "k" 7 "x" _ 0 0 none none
      "AccessDenied").2.2 rfl rfl rfl (by decide)⟩

/-- Counterexample to claim C5 as stated: an acquireLock call that omits the
conditional property entirely (here with maxAttempts and timeout present) is
dispatched to the existence branch, not to CAS mode: its trace is a single
If-None-Match write with no store read, so no predicate, default or
otherwise, is ever evaluated, whereas a CAS acquisition with a positive
attempt budget always begins with a GetObject. -/
theorem omitted_conditional_dispatches_existence :
    acquireLock (fun _ => JsVal.undefined) (fun _ => S3Resp.ok none (some "e1"))
      ⟨"b", "k", none, none, some 5, some 5000⟩ =
      (.ok ⟨"b", "k", some "e1"⟩,
       [.putObject "b" "k" none (some "*") defaultGenerateBody]) := rfl

/-- Claim C5 amended: CAS mode is selected only when the conditional property
is present; when it is present with an undefined value, acquireLock runs the
CAS loop with the default predicate defaultConditional (and the default
maxAttempts 5 and timeout 5000 when those are absent), while a call that
omits the property entirely is dispatched to existence mode. -/
theorem conditional_undefined_uses_default (parse : String → JsVal)
    (env : Nat → S3Resp) (props : AcquireProps)
    (hc : props.conditional = some none) :
    acquireLock parse env props =
      casLoop env props.bucket props.key (props.timeout.getD 5000)
        (props.generateBody.getD defaultGenerateBody)
        (defaultConditional parse) ((props.maxAttempts.getD 5).toNat) 0 := by
  simp [acquireLock, isCompareAndSwapLock, hc]

/-- Witness for the amended C5 at a concrete input with the conditional
property present but undefined. -/
theorem conditional_undefined_uses_default_witness :
    acquireLock (fun _ => JsVal.obj [("locked", JsVal.bool false)])
      (fun _ => S3Resp.ok none none)
      ⟨"b", "k", none, some none, some 1, some 0⟩ =
      casLoop (fun _ => S3Resp.ok none none) "b" "k" 0 defaultGenerateBody
        (defaultConditional (fun _ => JsVal.obj [("locked", JsVal.bool false)]))
        1 0 :=
  conditional_undefined_uses_default _ _ _ rfl

/-- Claim C9: the default predicate treats a missing or empty lock body as
unlocked: it returns true when the response carries no body (given that
JSON.parse of the empty-object literal gives an empty object), and when the
body decodes to an object without a locked field. -/
theorem default_conditional_missing_is_unlocked (parse : String → JsVal)
    (t : Option String) (hparse : parse "\x7b\x7d" = .obj []) :
    defaultConditional parse ⟨none, t⟩ = true ∧
    (∀ b fields, parse b = .obj fields →
      lookupField fields "locked" = .undefined →
      defaultConditional parse ⟨some b, t⟩ = true) := by
  constructor
  · simp [defaultConditional, hparse, JsVal.optField, lookupField,
      JsVal.truthy]
  · intro b fields hb hf
    simp [defaultConditional, hb, JsVal.optField, hf, JsVal.truthy]

/-- Witness for C9: a parse function sending every string to the empty
object; an absent body and a body without a locked field both read as
unlocked. -/
theorem default_conditional_missing_is_unlocked_witness :
    defaultConditional (fun _ => JsVal.obj []) ⟨none, none⟩ = true ∧
    defaultConditional (fun _ => JsVal.obj []) ⟨some "anything", none⟩ =
      true :=
  ⟨(default_conditional_missing_is_unlocked _ none rfl).1,
   (default_conditional_missing_is_unlocked _ none rfl).2 "anything" [] rfl
     rfl⟩

/-- Claim C4 fails on the code: initializeLockFile issues its single PutObject
with no conditional header at all (neither If-None-Match nor If-Match), so
run against a store whose key already holds an object with body OLD it
succeeds and overwrites that body with the unlocked marker, instead of
failing and leaving the object unchanged; the PreconditionFailed handler in
the source is unreachable. This theorem evaluates the code at that failing
input. -/
theorem initialize_overwrites_existing_object :
    (runInitialize
        (fun b k => if b = "b" ∧ k = "k" then some ⟨"OLD", "e0"⟩ else none)
        "e1" "b" "k").1.1 = .ok () ∧
    (runInitialize
        (fun b k => if b = "b" ∧ k = "k" then some ⟨"OLD", "e0"⟩ else none)
        "e1" "b" "k").1.2 = [.putObject "b" "k" none none initializeBody] ∧
    (runInitialize
        (fun b k => if b = "b" ∧ k = "k" then some ⟨"OLD", "e0"⟩ else none)
        "e1" "b" "k").2 "b" "k" = some ⟨initializeBody, "e1"⟩ ∧
    initializeBody ≠ "OLD" := by
  refine ⟨rfl, rfl, ?_, by decide⟩
  simp [runInitialize, stepPut, initializeLockFile, S3State.put]

/-- Claim C1: two existence-mode acquireLock calls on the same bucket and key
against a store state holding no object there, serialized in either order
(each call issues exactly one atomic If-None-Match write, see
existence_single_write_no_retry, so every concurrent execution is one of the
two symmetric serializations and this statement covers both by renaming):
the first write wins and that call returns a handle carrying the fresh tag,
and the other call fails with LockNotAcquiredError, because the store accepts
at most one must-not-exist write per key (stepPut rejects the second with
PreconditionFailed). -/
theorem existence_mutual_exclusion (parse1 parse2 : String → JsVal)
    (s0 : S3State) (f1 f2 b k : String) (props1 props2 : AcquireProps)
    (h0 : s0 b k = none)
    (hb1 : props1.bucket = b) (hk1 : props1.key = k)
    (hc1 : props1.conditional = none)
    (hb2 : props2.bucket = b) (hk2 : props2.key = k)
    (hc2 : props2.conditional = none) :
    (runExistence parse1 s0 f1 props1).1.1 = .ok ⟨b, k, some f1⟩ ∧
    (runExistence parse2 (runExistence parse1 s0 f1 props1).2 f2
        props2).1.1 = .error .lockNotAcquired := by
  have hstep1 : stepPut s0 f1 props1.bucket props1.key none (some "*")
      (props1.generateBody.getD defaultGenerateBody) =
      (.ok none (some f1),
       S3State.put s0 b k
         ⟨props1.generateBody.getD defaultGenerateBody, f1⟩) := by
    rw [hb1, hk1]
    simp [stepPut, h0]
  have hrun1 : runExistence parse1 s0 f1 props1 =
      (acquireLock parse1 (fun _ => S3Resp.ok none (some f1)) props1,
       S3State.put s0 b k
         ⟨props1.generateBody.getD defaultGenerateBody, f1⟩) := by
    simp only [runExistence]
    rw [hstep1]
  have hput : S3State.put s0 b k
      ⟨props1.generateBody.getD defaultGenerateBody, f1⟩ props2.bucket
      props2.key =
      some ⟨props1.generateBody.getD defaultGenerateBody, f1⟩ := by
    rw [hb2, hk2]
    simp [S3State.put]
  constructor
  · rw [hrun1, acquireLock_existence_eq parse1 _ props1 hc1, hb1, hk1]
  · rw [hrun1]
    have hstep2 : stepPut
        (S3State.put s0 b k
          ⟨props1.generateBody.getD defaultGenerateBody, f1⟩) f2
        props2.bucket props2.key none (some "*")
        (props2.generateBody.getD defaultGenerateBody) =
        (.err "PreconditionFailed",
         S3State.put s0 b k
           ⟨props1.generateBody.getD defaultGenerateBody, f1⟩) := by
      simp [stepPut, hput]
    simp only [runExistence]
    rw [hstep2, acquireLock_existence_eq parse2 _ props2 hc2]
    rfl

/-- Witness for C1: an empty store, two concrete existence calls; the first
returns a handle with the fresh tag f1 and the second fails. -/
theorem existence_mutual_exclusion_witness :
    (runExistence (fun _ => JsVal.undefined) (fun _ _ => none) "f1"
        ⟨"b", "k", none, none, none, none⟩).1.1 = .ok ⟨"b", "k", some "f1"⟩ ∧
    (runExistence (fun _ => JsVal.undefined)
        (runExistence (fun _ => JsVal.undefined) (fun _ _ => none) "f1"
          ⟨"b", "k", none, none, none, none⟩).2 "f2"
        ⟨"b", "k", none, none, none, none⟩).1.1 =
      .error .lockNotAcquired :=
  existence_mutual_exclusion _ _ _ "f1" "f2" "b" "k" _ _ rfl rfl rfl rfl rfl
    rfl rfl

/-- Claim C2: the release closure of a handle issues exactly one store write,
conditioned with If-Match on the tag the handle captured; that tag is the ETag
of the response of the successful acquire write (shown here for the CAS
success branch; existence_single_write_no_retry shows it for the existence
branch); and when the object at the key has since been written (its tag now
differs from the handle tag), running release against that store state is
rejected with PreconditionFailed, the error is surfaced to the caller
unchanged, and the stored object is not overwritten. -/
theorem release_stale_handle_detection (env : Nat → S3Resp) (h : Handle)
    (newBody : String) (s : S3State) (f : String) (o : Obj) (t : String)
    (he : h.etag = some t) (hs : s h.bucket h.key = some o)
    (hne : o.etag ≠ t) :
    (release env h newBody).2 =
      [.putObject h.bucket h.key h.etag none newBody] ∧
    (∀ (env2 : Nat → S3Resp) (bucket key : String) (timeout : Int)
        (body : String) (cond : GetObjectCommandOutput → Bool) (n idx : Nat)
        (b tg b2 t2 : Option String),
      env2 idx = S3Resp.ok b tg → cond ⟨b, tg⟩ = true →
      env2 (idx + 1) = S3Resp.ok b2 t2 →
      casLoop env2 bucket key timeout body cond (n + 1) idx =
        (.ok ⟨bucket, key, t2⟩,
         [.getObject bucket key, .putObject bucket key tg none body])) ∧
    (runRelease s f h newBody).1.1 = .error (.store "PreconditionFailed") ∧
    (runRelease s f h newBody).2 = s := by
  have hstep : stepPut s f h.bucket h.key h.etag none newBody =
      (.err "PreconditionFailed", s) := by
    rw [he]
    simp [stepPut, hs, hne]
  refine ⟨?_, ?_, ?_, ?_⟩
  · cases henv : env 0 <;> simp [release, henv]
  · intro env2 bucket key timeout body cond n idx b tg b2 t2 h1 h2 h3
    simp [casLoop, h1, h2, h3]
  · simp only [runRelease]
    rw [hstep]
    rfl
  · simp only [runRelease]
    rw [hstep]

/-- Witness for C2: a handle that acquired with tag e0 while the store now
holds tag e9; release issues its single If-Match write, is rejected, the
error is surfaced and the object keeps body X and tag e9; and a concrete CAS
success hands out the ETag g1 of the acquire write response. -/
theorem release_stale_handle_detection_witness :
    (release (fun _ => S3Resp.ok none none) ⟨"b", "k", some "e0"⟩ "nb").2 =
      [.putObject "b" "k" (some "e0") none "nb"] ∧
    casLoop (fun i => if i = 0 then S3Resp.ok none (some "g0")
        else S3Resp.ok none (some "g1")) "B" "K" 7 "x" (fun _ => true) 1 0 =
      (.ok ⟨"B", "K", some "g1"⟩,
       [.getObject "B" "K", .putObject "B" "K" (some "g0") none "x"]) ∧
    (runRelease
        (fun b k => if b = "b" ∧ k = "k" then some ⟨"X", "e9"⟩ else none)
        "f" ⟨"b", "k", some "e0"⟩ "nb").1.1 =
      .error (.store "PreconditionFailed") ∧
    (runRelease
        (fun b k => if b = "b" ∧ k = "k" then some ⟨"X", "e9"⟩ else none)
        "f" ⟨"b", "k", some "e0"⟩ "nb").2 =
      (fun b k => if b = "b" ∧ k = "k" then some ⟨"X", "e9"⟩ else none) :=
  ⟨(release_stale_handle_detection (fun _ => S3Resp.ok none none)
      ⟨"b", "k", some "e0"⟩ "nb"
      (fun b k => if b = "b" ∧ k = "k" then some ⟨"X", "e9"⟩ else none) "f"
      ⟨"X", "e9"⟩ "e0" rfl (by simp) (by decide)).1,
   (release_stale_handle_detection (fun _ => S3Resp.ok none none)
      ⟨"b", "k", some "e0"⟩ "nb"
      (fun b k => if b = "b" ∧ k = "k" then some ⟨"X", "e9"⟩ else none) "f"
      ⟨"X", "e9"⟩ "e0" rfl (by simp) (by decide)).2.1 _ "B" "K" 7 "x" _ 0 0
      none (some "g0") none (some "g1") rfl rfl rfl,
   (release_stale_handle_detection (fun _ => S3Resp.ok none none)
      ⟨"b", "k", some "e0"⟩ "nb"
      (fun b k => if b = "b" ∧ k = "k" then some ⟨"X", "e9"⟩ else none) "f"
      ⟨"X", "e9"⟩ "e0" rfl (by simp) (by decide)).2.2.1,
   (release_stale_handle_detection (fun _ => S3Resp.ok none none)
      ⟨"b", "k", some "e0"⟩ "nb"
      (fun b k => if b = "b" ∧ k = "k" then some ⟨"X", "e9"⟩ else none) "f"
      ⟨"X", "e9"⟩ "e0" rfl (by simp) (by decide)).2.2.2⟩
